import Mathlib

/-!
Shallow embedding of `resources/beam-on-kda/cdk/lib/workshop-infrastructure.ts`:
the `WorkshopInfrastructure` CDK stack constructor, modelled as a pure function
from the configuration bundle (`WorkshopInfrastructureProps`) and the local file
system (the two lambda source files read with `fs.readFileSync`) to the list of
resource descriptors the constructor declares, in declaration order.

CDK deploy-time tokens (`bucket.bucketName`, `cdk.Aws.PARTITION`, attribute
references such as `sg.securityGroupName`) are modelled symbolically: a string
value that may contain tokens is a list of parts, literal runs alternating with
attribute/pseudo-parameter references, exactly as CDK token-splits an
interpolated string.  Calls that mutate a construct after creation
(`addIngressRule`, `addToRolePolicy`, `addSubscription`, `addToPolicy`) are
folded into the descriptor, since the constructor is straight-line code and only
the final synthesized state of each construct is observable.
-/

namespace Workshop

/-- One part of a (possibly token-bearing) CDK string value:
a literal run, an attribute reference to a construct declared in this stack,
or an AWS pseudo parameter (`cdk.Aws.PARTITION` / `REGION` / `ACCOUNT_ID`). -/
inductive CdkPart where
  | lit (s : String)
  | ref (constructId : String) (attr : String)
  | pseudo (name : String)
deriving DecidableEq

/-- A CDK string value: literal runs alternating with tokens. -/
abbrev CdkStr := List CdkPart

/-- `WorkshopInfrastructureProps` (workshop-infrastructure.ts lines 15-20). -/
structure WorkshopInfrastructureProps where
  kinesisReplayVersion : String
  beamApplicationVersion : String
  beamApplicationJarFile : String
  appName : String
deriving DecidableEq

/-- `cdk.RemovalPolicy`. -/
inductive RemovalPolicy where
  | DESTROY
  | RETAIN
deriving DecidableEq

/-- `ec2.SubnetType`. -/
inductive SubnetType where
  | PUBLIC
  | PRIVATE
  | ISOLATED
deriving DecidableEq

/-- One entry of a VPC `subnetConfiguration`. -/
structure SubnetConfiguration where
  name : String
  subnetType : SubnetType
deriving DecidableEq

/-- A connection peer of a security-group rule: `ec2.Peer.anyIpv4()`
(the CIDR range 0.0.0.0/0) or another security group, given by construct id
(`sg` passed as its own peer on line 57). -/
inductive Peer where
  | anyIpv4
  | securityGroupRef (constructId : String)
deriving DecidableEq

/-- `ec2.Port`: a single TCP port or `ec2.Port.allTraffic()`. -/
inductive Port where
  | tcp (port : Nat)
  | allTraffic
deriving DecidableEq

/-- An ingress rule recorded by `sg.addIngressRule(peer, port)`. -/
structure IngressRule where
  peer : Peer
  port : Port
deriving DecidableEq

/-- `iam.PolicyStatement({actions, resources})`. -/
structure PolicyStatement where
  actions : List String
  resources : List CdkStr
deriving DecidableEq

/-- `lambda.Runtime` values used by this stack. -/
inductive Runtime where
  | NODEJS_12_X
  | PYTHON_3_7
deriving DecidableEq

/-- A `lambda.Function` declaration, with the policy statements later added to
its role through `addToRolePolicy` folded in.  `code` is the inline source
string; `memorySize` is `none` when the declaration leaves it at the default. -/
structure LambdaFunction where
  runtime : Runtime
  code : String
  timeoutSeconds : Nat
  handler : String
  memorySize : Option Nat
  environment : List (String × String)
  rolePolicy : List PolicyStatement
deriving DecidableEq

/-- An SNS subscription added with `topic.addSubscription`; the workshop only
uses `subs.LambdaSubscription`, recorded by the subscribed function's
construct id. -/
inductive Subscription where
  | lambdaSubscription (functionConstructId : String)
deriving DecidableEq

/-- An `iam.Role` declaration, with statements added through `addToPolicy`
folded into `policy`. -/
structure Role where
  assumedBy : String
  managedPolicies : List String
  policy : List PolicyStatement
deriving DecidableEq

/-- An EMR instance group (`masterInstanceGroup` / `coreInstanceGroup`). -/
structure InstanceGroup where
  instanceCount : Nat
  instanceType : String
  name : String
deriving DecidableEq

/-- The `instances` block of `emr.CfnCluster`. -/
structure EmrInstances where
  masterInstanceGroup : InstanceGroup
  coreInstanceGroup : InstanceGroup
  additionalMasterSecurityGroups : List CdkStr
  ec2SubnetId : CdkStr
deriving DecidableEq

/-- An `emr.CfnCluster` declaration. -/
structure EmrCluster where
  name : String
  applications : List String
  instances : EmrInstances
  serviceRole : CdkStr
  releaseLabel : String
  visibleToAllUsers : Bool
  jobFlowRole : CdkStr
deriving DecidableEq

/-- A resource descriptor declared by the stack constructor.  External
collaborator constructs (`EmptyBucketOnDelete`, `GithubBuildPipeline`,
`WindowsDevEnvironment`) are black boxes recorded with the props this file
passes them; `bucketGrantRead` records the `bucket.grantRead(role)` call. -/
inductive Resource where
  | bucket (id : String) (versioned : Bool) (removalPolicy : RemovalPolicy)
  | emptyBucketOnDelete (id : String) (bucketId : String)
  | cfnOutput (id : String) (value : CdkStr)
  | vpc (id : String) (subnetConfiguration : List SubnetConfiguration)
  | securityGroup (id : String) (vpcId : String) (ingressRules : List IngressRule)
  | windowsDevEnvironment (id : String) (props : WorkshopInfrastructureProps)
      (vpcId : String) (sgId : String) (bucketId : String)
  | githubBuildPipeline (id : String) (url : String) (bucketId : String) (extract : Bool)
  | lambdaFunction (id : String) (fn : LambdaFunction)
  | topic (id : String) (subscriptions : List Subscription)
  | role (id : String) (r : Role)
  | cfnInstanceProfile (id : String) (roles : List CdkStr)
  | bucketGrantRead (bucketId : String) (granteeId : String)
  | emrCluster (id : String) (c : EmrCluster)
deriving DecidableEq

/-- The `WorkshopInfrastructure` constructor (workshop-infrastructure.ts lines
22-206) as a pure synthesis function.  `fs` maps a path to the file's contents,
or `none` when the file cannot be read; `fs.readFileSync` throwing on a missing
file is modelled by the whole synthesis returning `none` (the exception
propagates out of the constructor, so no resource graph is produced). -/
def synth (props : WorkshopInfrastructureProps) (fs : String → Option String) :
    Option (List Resource) :=
  -- lines 30-33
  let bucket := Resource.bucket "Bucket" true RemovalPolicy.DESTROY
  -- lines 35-37
  let emptyBucket := Resource.emptyBucketOnDelete "EmptyBucket" "Bucket"
  -- line 39
  let outS3Bucket := Resource.cfnOutput "S3Bucket" [CdkPart.ref "Bucket" "Name"]
  -- lines 40-42
  let outInputS3Pattern := Resource.cfnOutput "InputS3Pattern"
    [CdkPart.lit "s3://", CdkPart.ref "Bucket" "Name",
     CdkPart.lit "/historic-trip-events/*/*/*/*/*"]
  -- lines 45-50
  let vpc := Resource.vpc "Vpc" [{ name := "public", subnetType := SubnetType.PUBLIC }]
  -- lines 52-57
  let sg := Resource.securityGroup "SecurityGroup" "Vpc"
    [{ peer := Peer.anyIpv4, port := Port.tcp 3389 },
     { peer := Peer.securityGroupRef "SecurityGroup", port := Port.allTraffic }]
  -- lines 59-64
  let devEnv := Resource.windowsDevEnvironment "WindowsDevEnvironment" props
    "Vpc" "SecurityGroup" "Bucket"
  -- lines 67-71
  let buildPipeline := Resource.githubBuildPipeline "BeamConsumerBuildPipeline"
    ("https://github.com/aws-samples/amazon-kinesis-analytics-beam-taxi-consumer/archive/"
      ++ props.beamApplicationVersion ++ ".zip")
    "Bucket" true
  -- lines 73-75
  let outBeamConsumerJarPath := Resource.cfnOutput "BeamConsumerJarPath"
    [CdkPart.lit ("target/" ++ props.beamApplicationJarFile)]
  -- lines 77-79
  (fs "lambda/add-approximate-arrival-time.js").bind fun addTimestamplambdaSource =>
  -- lines 81-86
  let enrichEvents := Resource.lambdaFunction "EnrichEventsLambda"
    { runtime := Runtime.NODEJS_12_X
      code := addTimestamplambdaSource
      timeoutSeconds := 60
      handler := "index.handler"
      memorySize := none
      environment := []
      rolePolicy := [] }
  -- lines 88-90
  let outFirehoseTransformationLambda := Resource.cfnOutput "FirehoseTransformationLambda"
    [CdkPart.ref "EnrichEventsLambda" "FunctionName"]
  -- lines 92-94
  (fs "lambda/stop-kda-app.py").bind fun stopApplicationlambdaSource =>
  -- lines 96-114 (function declaration plus the addToRolePolicy statement)
  let terminateAppLambda := Resource.lambdaFunction "TerminateAppLambda"
    { runtime := Runtime.PYTHON_3_7
      code := stopApplicationlambdaSource
      timeoutSeconds := 15 * 60
      handler := "index.empty_bucket"
      memorySize := some 512
      environment := [("application_name", props.appName)]
      rolePolicy :=
        [{ actions := ["kinesisanalytics:StopApplication"]
           resources :=
             [[CdkPart.lit "arn:", CdkPart.pseudo "AWS::Partition",
               CdkPart.lit ":kinesisanalytics:", CdkPart.pseudo "AWS::Region",
               CdkPart.lit ":", CdkPart.pseudo "AWS::AccountId",
               CdkPart.lit ":application/", CdkPart.lit props.appName]] }] }
  -- lines 116-118 (topic plus its addSubscription)
  let topic := Resource.topic "ApplicationTerminatedTopic"
    [Subscription.lambdaSubscription "TerminateAppLambda"]
  -- lines 120-122
  let outApplicationTerminatedTopicName := Resource.cfnOutput "ApplicationTerminatedTopicName"
    [CdkPart.ref "ApplicationTerminatedTopic" "TopicName"]
  -- lines 124-140 (role plus its addToPolicy statement)
  let kdaRole := Resource.role "KdaRole"
    { assumedBy := "kinesisanalytics.amazonaws.com"
      managedPolicies := []
      policy :=
        [{ actions :=
             ["logs:Describe*", "logs:PutLogEvents", "kinesis:List*",
              "kinesis:Describe*", "kinesis:Get*", "kinesis:SubscribeToShard"]
           resources := [[CdkPart.lit "*"]] }] }
  -- line 142
  let grantRead := Resource.bucketGrantRead "Bucket" "KdaRole"
  -- lines 145-150
  let emrClusterRole := Resource.role "EmrClusterRole"
    { assumedBy := "elasticmapreduce.amazonaws.com"
      managedPolicies := ["service-role/AmazonElasticMapReduceRole"]
      policy := [] }
  -- lines 152-158
  let emrInstanceRole := Resource.role "EmrInstanceRole"
    { assumedBy := "ec2.amazonaws.com"
      managedPolicies :=
        ["service-role/AmazonElasticMapReduceforEC2Role", "AmazonSSMManagedInstanceCore"]
      policy := [] }
  -- lines 160-164
  let emrProfile := Resource.cfnInstanceProfile "EmrInstanceProfile"
    [[CdkPart.ref "EmrInstanceRole" "RoleName"]]
  -- lines 166-205
  let cluster := Resource.emrCluster "EmrCluster"
    { name := "beam-workshop"
      applications := ["Hadoop", "Ganglia", "Flink", "ZooKeeper"]
      instances :=
        { masterInstanceGroup :=
            { instanceCount := 1, instanceType := "c5n.xlarge", name := "Master" }
          coreInstanceGroup :=
            { instanceCount := 2, instanceType := "r5.xlarge", name := "Core" }
          additionalMasterSecurityGroups := [[CdkPart.ref "SecurityGroup" "GroupName"]]
          ec2SubnetId := [CdkPart.ref "Vpc" "PublicSubnet1.SubnetId"] }
      serviceRole := [CdkPart.ref "EmrClusterRole" "RoleName"]
      releaseLabel := "emr-5.27.0"
      visibleToAllUsers := true
      jobFlowRole := [CdkPart.ref "EmrInstanceProfile" "Ref"] }
  some
    [bucket, emptyBucket, outS3Bucket, outInputS3Pattern, vpc, sg, devEnv,
     buildPipeline, outBeamConsumerJarPath, enrichEvents,
     outFirehoseTransformationLambda, terminateAppLambda, topic,
     outApplicationTerminatedTopicName, kdaRole, grantRead, emrClusterRole,
     emrInstanceRole, emrProfile, cluster]

/-- The `(versioned, removalPolicy)` pair of a bucket descriptor, keyed by
construct id. -/
def bucketSpec : Resource → Option (String × Bool × RemovalPolicy)
  | Resource.bucket id v rp => some (id, v, rp)
  | _ => none

/-- The ingress-rule list of a security-group descriptor. -/
def securityGroupRules : Resource → Option (List IngressRule)
  | Resource.securityGroup _ _ rules => some rules
  | _ => none

/-- The source-archive URL of a build-pipeline descriptor. -/
def pipelineUrl : Resource → Option String
  | Resource.githubBuildPipeline _ url _ _ => some url
  | _ => none

/-- The subscription list of a topic descriptor. -/
def topicSubs : Resource → Option (List Subscription)
  | Resource.topic _ subsList => some subsList
  | _ => none

/-- The `(runtime, handler, memorySize)` of the lambda function with the given
construct id. -/
def lambdaCfg (id : String) : Resource → Option (Runtime × String × Option Nat)
  | Resource.lambdaFunction i fn =>
      if i = id then some (fn.runtime, fn.handler, fn.memorySize) else none
  | _ => none

/-- The role-policy statements of the lambda function with the given
construct id. -/
def lambdaPolicy (id : String) : Resource → Option (List PolicyStatement)
  | Resource.lambdaFunction i fn => if i = id then some fn.rolePolicy else none
  | _ => none

/-- The value of the `CfnOutput` with the given output id, when the graph
declares it (first declaration wins). -/
def outputValue (g : List Resource) (id : String) : Option CdkStr :=
  (g.filterMap fun r =>
    match r with
    | Resource.cfnOutput i v => if i = id then some v else none
    | _ => none).head?

/-- Resource-kind tests, used to count resources of each kind. -/
def isBucket : Resource → Bool
  | Resource.bucket _ _ _ => true
  | _ => false

def isVpc : Resource → Bool
  | Resource.vpc _ _ => true
  | _ => false

def isSecurityGroup : Resource → Bool
  | Resource.securityGroup _ _ _ => true
  | _ => false

def isLambdaFunction : Resource → Bool
  | Resource.lambdaFunction _ _ => true
  | _ => false

def isTopic : Resource → Bool
  | Resource.topic _ _ => true
  | _ => false

def isRole : Resource → Bool
  | Resource.role _ _ => true
  | _ => false

def isInstanceProfile : Resource → Bool
  | Resource.cfnInstanceProfile _ _ => true
  | _ => false

def isEmrCluster : Resource → Bool
  | Resource.emrCluster _ _ => true
  | _ => false

/-- The KDA application ARN the termination function's policy is scoped to:
`arn:${PARTITION}:kinesisanalytics:${REGION}:${ACCOUNT_ID}:application/${appName}`
(line 111). -/
def kdaAppArn (appName : String) : CdkStr :=
  [CdkPart.lit "arn:", CdkPart.pseudo "AWS::Partition",
   CdkPart.lit ":kinesisanalytics:", CdkPart.pseudo "AWS::Region",
   CdkPart.lit ":", CdkPart.pseudo "AWS::AccountId",
   CdkPart.lit ":application/", CdkPart.lit appName]

/-- The build-pipeline archive URL as a function of the application version
(line 68). -/
def archiveUrl (version : String) : String :=
  "https://github.com/aws-samples/amazon-kinesis-analytics-beam-taxi-consumer/archive/"
    ++ version ++ ".zip"

/-- A concrete configuration bundle, for witnesses. -/
def exProps : WorkshopInfrastructureProps :=
  { kinesisReplayVersion := "1.0"
    beamApplicationVersion := "0.1"
    beamApplicationJarFile := "beam-taxi-count-jar-with-dependencies.jar"
    appName := "beam-workshop-app" }

/-- A concrete file system holding both lambda source files. -/
def exFs : String → Option String := fun path =>
  if path = "lambda/add-approximate-arrival-time.js" then some "exports.handler = f"
  else if path = "lambda/stop-kda-app.py" then some "def empty_bucket(e, c): pass"
  else none

/-- The graph synthesized from `exProps` and `exFs`. -/
def exGraph : List Resource := (synth exProps exFs).getD []

/-- A file system on which neither lambda source file can be read. -/
def emptyFs : String → Option String := fun _ => none

/-- `exProps` with only `beamApplicationVersion` changed, for the C1
counterexample. -/
def cexProps : WorkshopInfrastructureProps :=
  { exProps with beamApplicationVersion := "0.2" }

/-- The graph synthesized from `cexProps` and `exFs`. -/
def cexGraph : List Resource := (synth cexProps exFs).getD []

/-- Appending the same strings on both sides is cancellative. -/
theorem string_append_cancel (a b c d : String)
    (h : a ++ b ++ c = a ++ d ++ c) : b = d := by
  have hd : a.data ++ b.data ++ c.data = a.data ++ d.data ++ c.data := by
    have h2 := congrArg String.data h
    simpa [String.data_append] using h2
  exact String.ext (List.append_cancel_left (List.append_cancel_right hd))

/-- The archive URL determines the application version substituted into it. -/
theorem archiveUrl_inj (v1 v2 : String) (h : archiveUrl v1 = archiveUrl v2) :
    v1 = v2 :=
  string_append_cancel _ _ _ _ h

/-- Claim C1, counterexample: two configuration bundles that differ only in
`beamApplicationVersion` produce different build-pipeline archive URLs but the
SAME `BeamConsumerJarPath` output, because line 74 builds that output from
`props.beamApplicationJarFile` only.  This refutes the claim that changing only
the version changes both values. -/
theorem C1_counterexample :
    exProps.kinesisReplayVersion = cexProps.kinesisReplayVersion ∧
    exProps.beamApplicationJarFile = cexProps.beamApplicationJarFile ∧
    exProps.appName = cexProps.appName ∧
    exProps.beamApplicationVersion ≠ cexProps.beamApplicationVersion ∧
    (synth exProps exFs).map (fun g => g.filterMap pipelineUrl) ≠
      (synth cexProps exFs).map (fun g => g.filterMap pipelineUrl) ∧
    (synth exProps exFs).map (fun g => outputValue g "BeamConsumerJarPath") =
      (synth cexProps exFs).map (fun g => outputValue g "BeamConsumerJarPath") := by
  refine ⟨rfl, rfl, rfl, ?_, ?_, rfl⟩ <;> decide

/-- Claim C1, amended: for two configuration bundles that differ in
`beamApplicationVersion` but agree on `beamApplicationJarFile`, the
build-pipeline archive URL changes (with the respective version substituted
into it), while the `BeamConsumerJarPath` output is unchanged: that output
depends only on `beamApplicationJarFile`, not on the version. -/
theorem C1_version_url (p1 p2 : WorkshopInfrastructureProps)
    (fs : String → Option String) (g1 g2 : List Resource)
    (h1 : synth p1 fs = some g1) (h2 : synth p2 fs = some g2)
    (hv : p1.beamApplicationVersion ≠ p2.beamApplicationVersion)
    (hjar : p1.beamApplicationJarFile = p2.beamApplicationJarFile) :
    g1.filterMap pipelineUrl = [archiveUrl p1.beamApplicationVersion] ∧
    g2.filterMap pipelineUrl = [archiveUrl p2.beamApplicationVersion] ∧
    g1.filterMap pipelineUrl ≠ g2.filterMap pipelineUrl ∧
    outputValue g1 "BeamConsumerJarPath" = outputValue g2 "BeamConsumerJarPath" := by
  cases e1 : fs "lambda/add-approximate-arrival-time.js" with
  | none => simp [synth, e1] at h1
  | some s1 =>
    cases e2 : fs "lambda/stop-kda-app.py" with
    | none => simp [synth, e1, e2] at h1
    | some s2 =>
      simp only [synth, e1, e2, Option.some_bind, Option.some.injEq] at h1 h2
      subst h1
      subst h2
      refine ⟨rfl, rfl, ?_, ?_⟩
      · intro heq
        have hu : archiveUrl p1.beamApplicationVersion =
            archiveUrl p2.beamApplicationVersion := by
          have hl : [archiveUrl p1.beamApplicationVersion] =
              [archiveUrl p2.beamApplicationVersion] := heq
          exact List.head_eq_of_cons_eq hl
        exact hv (archiveUrl_inj _ _ hu)
      · show (some [CdkPart.lit ("target/" ++ p1.beamApplicationJarFile)] : Option CdkStr) =
          some [CdkPart.lit ("target/" ++ p2.beamApplicationJarFile)]
        rw [hjar]

/-- Claim C1 witness: the amended statement at the concrete bundles `exProps`
and `cexProps`. -/
theorem C1_version_url_witness :
    exGraph.filterMap pipelineUrl = [archiveUrl exProps.beamApplicationVersion] ∧
    cexGraph.filterMap pipelineUrl = [archiveUrl cexProps.beamApplicationVersion] ∧
    exGraph.filterMap pipelineUrl ≠ cexGraph.filterMap pipelineUrl ∧
    outputValue exGraph "BeamConsumerJarPath" =
      outputValue cexGraph "BeamConsumerJarPath" :=
  C1_version_url exProps cexProps exFs exGraph cexGraph rfl rfl (by decide) rfl

/-- Claim C2: in every synthesized graph, the security group's ingress rule set
is exactly the two rules added on lines 56-57: TCP port 3389 open to
0.0.0.0/0 (`ec2.Peer.anyIpv4()`), and all traffic allowed from the security
group itself; and there is exactly one security group. -/
theorem C2_security_group_rules (p : WorkshopInfrastructureProps)
    (fs : String → Option String) (g : List Resource)
    (h : synth p fs = some g) :
    g.filterMap securityGroupRules =
      [[{ peer := Peer.anyIpv4, port := Port.tcp 3389 },
        { peer := Peer.securityGroupRef "SecurityGroup", port := Port.allTraffic }]] := by
  cases e1 : fs "lambda/add-approximate-arrival-time.js" with
  | none => simp [synth, e1] at h
  | some s1 =>
    cases e2 : fs "lambda/stop-kda-app.py" with
    | none => simp [synth, e1, e2] at h
    | some s2 =>
      simp only [synth, e1, e2, Option.some_bind, Option.some.injEq] at h
      subst h
      rfl

/-- Claim C2 witness: the security-group property at the concrete bundle. -/
theorem C2_security_group_rules_witness :
    exGraph.filterMap securityGroupRules =
      [[{ peer := Peer.anyIpv4, port := Port.tcp 3389 },
        { peer := Peer.securityGroupRef "SecurityGroup", port := Port.allTraffic }]] :=
  C2_security_group_rules exProps exFs exGraph rfl

/-- Claim C3: in every synthesized graph, the policy attached to the
termination function's role (lines 107-114) consists of exactly one statement,
whose action list is exactly `kinesisanalytics:StopApplication` and whose
resource list is exactly the one application ARN ending in the configured
`props.appName`. -/
theorem C3_terminate_policy (p : WorkshopInfrastructureProps)
    (fs : String → Option String) (g : List Resource)
    (h : synth p fs = some g) :
    g.filterMap (lambdaPolicy "TerminateAppLambda") =
      [[{ actions := ["kinesisanalytics:StopApplication"]
          resources := [kdaAppArn p.appName] }]] := by
  cases e1 : fs "lambda/add-approximate-arrival-time.js" with
  | none => simp [synth, e1] at h
  | some s1 =>
    cases e2 : fs "lambda/stop-kda-app.py" with
    | none => simp [synth, e1, e2] at h
    | some s2 =>
      simp only [synth, e1, e2, Option.some_bind, Option.some.injEq] at h
      subst h
      rfl

/-- Claim C3 witness: the termination-policy property at the concrete
bundle. -/
theorem C3_terminate_policy_witness :
    exGraph.filterMap (lambdaPolicy "TerminateAppLambda") =
      [[{ actions := ["kinesisanalytics:StopApplication"]
          resources := [kdaAppArn exProps.appName] }]] :=
  C3_terminate_policy exProps exFs exGraph rfl

/-- Claim C4: every synthesized graph contains exactly one storage bucket, one
VPC, one security group, two lambda functions, one SNS topic, three IAM roles,
one instance profile, and one EMR cluster. -/
theorem C4_resource_counts (p : WorkshopInfrastructureProps)
    (fs : String → Option String) (g : List Resource)
    (h : synth p fs = some g) :
    g.countP isBucket = 1 ∧ g.countP isVpc = 1 ∧ g.countP isSecurityGroup = 1 ∧
    g.countP isLambdaFunction = 2 ∧ g.countP isTopic = 1 ∧ g.countP isRole = 3 ∧
    g.countP isInstanceProfile = 1 ∧ g.countP isEmrCluster = 1 := by
  cases e1 : fs "lambda/add-approximate-arrival-time.js" with
  | none => simp [synth, e1] at h
  | some s1 =>
    cases e2 : fs "lambda/stop-kda-app.py" with
    | none => simp [synth, e1, e2] at h
    | some s2 =>
      simp only [synth, e1, e2, Option.some_bind, Option.some.injEq] at h
      subst h
      exact ⟨rfl, rfl, rfl, rfl, rfl, rfl, rfl, rfl⟩

/-- Claim C4 witness: the resource counts at the concrete bundle. -/
theorem C4_resource_counts_witness :
    exGraph.countP isBucket = 1 ∧ exGraph.countP isVpc = 1 ∧
    exGraph.countP isSecurityGroup = 1 ∧ exGraph.countP isLambdaFunction = 2 ∧
    exGraph.countP isTopic = 1 ∧ exGraph.countP isRole = 3 ∧
    exGraph.countP isInstanceProfile = 1 ∧ exGraph.countP isEmrCluster = 1 :=
  C4_resource_counts exProps exFs exGraph rfl

/-- Claim C5: in every synthesized graph, the `InputS3Pattern` output value is
`s3://` followed by the bucket-name token of the bucket with construct id
`Bucket`, followed by `/historic-trip-events/*/*/*/*/*`; and the graph's unique
bucket is exactly that construct (lines 40-42). -/
theorem C5_input_pattern (p : WorkshopInfrastructureProps)
    (fs : String → Option String) (g : List Resource)
    (h : synth p fs = some g) :
    outputValue g "InputS3Pattern" =
      some [CdkPart.lit "s3://", CdkPart.ref "Bucket" "Name",
            CdkPart.lit "/historic-trip-events/*/*/*/*/*"] ∧
    g.filterMap bucketSpec = [("Bucket", true, RemovalPolicy.DESTROY)] := by
  cases e1 : fs "lambda/add-approximate-arrival-time.js" with
  | none => simp [synth, e1] at h
  | some s1 =>
    cases e2 : fs "lambda/stop-kda-app.py" with
    | none => simp [synth, e1, e2] at h
    | some s2 =>
      simp only [synth, e1, e2, Option.some_bind, Option.some.injEq] at h
      subst h
      exact ⟨rfl, rfl⟩

/-- Claim C5 witness: the input-pattern property at the concrete bundle. -/
theorem C5_input_pattern_witness :
    outputValue exGraph "InputS3Pattern" =
      some [CdkPart.lit "s3://", CdkPart.ref "Bucket" "Name",
            CdkPart.lit "/historic-trip-events/*/*/*/*/*"] ∧
    exGraph.filterMap bucketSpec = [("Bucket", true, RemovalPolicy.DESTROY)] :=
  C5_input_pattern exProps exFs exGraph rfl

/-- Claim C6: synthesis is a deterministic function of the configuration bundle
and the contents of the two embedded lambda source files: two runs with equal
configuration and equal file contents produce identical resource graphs. -/
theorem C6_deterministic (p1 p2 : WorkshopInfrastructureProps)
    (fs1 fs2 : String → Option String) (hp : p1 = p2)
    (h1 : fs1 "lambda/add-approximate-arrival-time.js" =
          fs2 "lambda/add-approximate-arrival-time.js")
    (h2 : fs1 "lambda/stop-kda-app.py" = fs2 "lambda/stop-kda-app.py") :
    synth p1 fs1 = synth p2 fs2 := by
  subst hp
  simp only [synth, h1, h2]

/-- Claim C6 witness: determinism at the concrete bundle and file system. -/
theorem C6_deterministic_witness : synth exProps exFs = synth exProps exFs :=
  C6_deterministic exProps exProps exFs exFs rfl rfl rfl

/-- Claim C7: in every synthesized graph, the unique bucket is declared with
versioning enabled and `RemovalPolicy.DESTROY` (lines 30-33); since this holds
for all configuration bundles and file systems, the deletion policy depends on
neither. -/
theorem C7_bucket_destroy (p : WorkshopInfrastructureProps)
    (fs : String → Option String) (g : List Resource)
    (h : synth p fs = some g) :
    g.filterMap bucketSpec = [("Bucket", true, RemovalPolicy.DESTROY)] := by
  cases e1 : fs "lambda/add-approximate-arrival-time.js" with
  | none => simp [synth, e1] at h
  | some s1 =>
    cases e2 : fs "lambda/stop-kda-app.py" with
    | none => simp [synth, e1, e2] at h
    | some s2 =>
      simp only [synth, e1, e2, Option.some_bind, Option.some.injEq] at h
      subst h
      rfl

/-- Claim C7 witness: the bucket property at the concrete bundle. -/
theorem C7_bucket_destroy_witness :
    exGraph.filterMap bucketSpec = [("Bucket", true, RemovalPolicy.DESTROY)] :=
  C7_bucket_destroy exProps exFs exGraph rfl

/-- Claim C8: in every synthesized graph, the unique topic has exactly one
subscription, a lambda subscription to the construct `TerminateAppLambda`, and
the graph has exactly one lambda function with that construct id (the
termination function, lines 116-118). -/
theorem C8_topic_subscription (p : WorkshopInfrastructureProps)
    (fs : String → Option String) (g : List Resource)
    (h : synth p fs = some g) :
    g.filterMap topicSubs = [[Subscription.lambdaSubscription "TerminateAppLambda"]] ∧
    g.countP (fun r => (lambdaCfg "TerminateAppLambda" r).isSome) = 1 := by
  cases e1 : fs "lambda/add-approximate-arrival-time.js" with
  | none => simp [synth, e1] at h
  | some s1 =>
    cases e2 : fs "lambda/stop-kda-app.py" with
    | none => simp [synth, e1, e2] at h
    | some s2 =>
      simp only [synth, e1, e2, Option.some_bind, Option.some.injEq] at h
      subst h
      exact ⟨rfl, rfl⟩

/-- Claim C8 witness: the topic-subscription property at the concrete
bundle. -/
theorem C8_topic_subscription_witness :
    exGraph.filterMap topicSubs =
      [[Subscription.lambdaSubscription "TerminateAppLambda"]] ∧
    exGraph.countP (fun r => (lambdaCfg "TerminateAppLambda" r).isSome) = 1 :=
  C8_topic_subscription exProps exFs exGraph rfl

/-- Claim C9: if either lambda source file cannot be read, synthesis fails as a
whole and produces no resource graph (the `fs.readFileSync` exception on lines
77-79 / 92-94 aborts the constructor). -/
theorem C9_missing_file_fatal (p : WorkshopInfrastructureProps)
    (fs : String → Option String)
    (h : fs "lambda/add-approximate-arrival-time.js" = none ∨
         fs "lambda/stop-kda-app.py" = none) :
    synth p fs = none := by
  rcases h with h | h
  · simp [synth, h]
  · cases e1 : fs "lambda/add-approximate-arrival-time.js" <;> simp [synth, e1, h]

/-- Claim C9 witness: synthesis over the empty file system fails. -/
theorem C9_missing_file_fatal_witness : synth exProps emptyFs = none :=
  C9_missing_file_fatal exProps emptyFs (Or.inl rfl)

/-- Claim C10: in every synthesized graph, the termination function is declared
with runtime `PYTHON_3_7`, handler `index.empty_bucket` and 512 MB of memory,
and the enrichment function with runtime `NODEJS_12_X`, handler `index.handler`
and no explicit memory size; none of these depend on the configuration. -/
theorem C10_lambda_config (p : WorkshopInfrastructureProps)
    (fs : String → Option String) (g : List Resource)
    (h : synth p fs = some g) :
    g.filterMap (lambdaCfg "TerminateAppLambda") =
      [(Runtime.PYTHON_3_7, "index.empty_bucket", some 512)] ∧
    g.filterMap (lambdaCfg "EnrichEventsLambda") =
      [(Runtime.NODEJS_12_X, "index.handler", none)] := by
  cases e1 : fs "lambda/add-approximate-arrival-time.js" with
  | none => simp [synth, e1] at h
  | some s1 =>
    cases e2 : fs "lambda/stop-kda-app.py" with
    | none => simp [synth, e1, e2] at h
    | some s2 =>
      simp only [synth, e1, e2, Option.some_bind, Option.some.injEq] at h
      subst h
      exact ⟨rfl, rfl⟩

/-- Claim C10 witness: the lambda configuration at the concrete bundle. -/
theorem C10_lambda_config_witness :
    exGraph.filterMap (lambdaCfg "TerminateAppLambda") =
      [(Runtime.PYTHON_3_7, "index.empty_bucket", some 512)] ∧
    exGraph.filterMap (lambdaCfg "EnrichEventsLambda") =
      [(Runtime.NODEJS_12_X, "index.handler", none)] :=
  C10_lambda_config exProps exFs exGraph rfl

end Workshop
